import Mathlib

/-!
Verification of the ideogram-bulk-download repository.

The four Python source files (download.py, download_browser.py,
download_local.py, download_stealth.py) are shallowly embedded below.
JSON values are modelled by an inductive `Json` type; Python dict lookup,
truthiness and the `or` operator are modelled by `Json.get`, `Json.truthy`
and `pyOr`; the network is abstracted into explicit transport functions
(the spec's Transport / Observer-feed interfaces).
-/

/-- Decoded JSON value (the RawPayload of the spec). Python dicts coming out
of json.loads have unique keys; lookups below take the first match. -/
inductive Json where
  | null
  | bool (b : Bool)
  | num (n : Int)
  | str (s : String)
  | arr (xs : List Json)
  | obj (kvs : List (String × Json))

mutual

/-- Boolean structural equality on JSON values. -/
def Json.beq : Json → Json → Bool
  | .null, .null => true
  | .bool a, .bool b => a == b
  | .num a, .num b => a == b
  | .str a, .str b => a == b
  | .arr a, .arr b => beqJsonList a b
  | .obj a, .obj b => beqJsonObj a b
  | _, _ => false

def beqJsonList : List Json → List Json → Bool
  | [], [] => true
  | a :: as, b :: bs => Json.beq a b && beqJsonList as bs
  | _, _ => false

def beqJsonObj : List (String × Json) → List (String × Json) → Bool
  | [], [] => true
  | (k1, v1) :: as, (k2, v2) :: bs => k1 == k2 && Json.beq v1 v2 && beqJsonObj as bs
  | _, _ => false

end

mutual

def jsonBeqRefl : (a : Json) → Json.beq a a = true
  | .null => rfl
  | .bool b => by simp [Json.beq]
  | .num n => by simp [Json.beq]
  | .str s => by simp [Json.beq]
  | .arr xs => by simp [Json.beq, jsonBeqReflList xs]
  | .obj kvs => by simp [Json.beq, jsonBeqReflObj kvs]

def jsonBeqReflList : (xs : List Json) → beqJsonList xs xs = true
  | [] => rfl
  | x :: xs => by simp [beqJsonList, jsonBeqRefl x, jsonBeqReflList xs]

def jsonBeqReflObj : (kvs : List (String × Json)) → beqJsonObj kvs kvs = true
  | [] => rfl
  | (k, v) :: kvs => by simp [beqJsonObj, jsonBeqRefl v, jsonBeqReflObj kvs]

end

mutual

def jsonBeqEq : (a b : Json) → Json.beq a b = true → a = b
  | .null, .null, _ => rfl
  | .bool a, .bool b, h => by simp [Json.beq] at h; simp [h]
  | .num a, .num b, h => by simp [Json.beq] at h; simp [h]
  | .str a, .str b, h => by simp [Json.beq] at h; simp [h]
  | .arr a, .arr b, h => by
      simp [Json.beq] at h
      exact congrArg Json.arr (jsonBeqEqList a b h)
  | .obj a, .obj b, h => by
      simp [Json.beq] at h
      exact congrArg Json.obj (jsonBeqEqObj a b h)

def jsonBeqEqList : (a b : List Json) → beqJsonList a b = true → a = b
  | [], [], _ => rfl
  | x :: xs, y :: ys, h => by
      simp only [beqJsonList, Bool.and_eq_true] at h
      rw [jsonBeqEq x y h.1, jsonBeqEqList xs ys h.2]

def jsonBeqEqObj : (a b : List (String × Json)) → beqJsonObj a b = true → a = b
  | [], [], _ => rfl
  | (k1, v1) :: xs, (k2, v2) :: ys, h => by
      simp only [beqJsonObj, Bool.and_eq_true, beq_iff_eq] at h
      rw [h.1.1, jsonBeqEq v1 v2 h.1.2, jsonBeqEqObj xs ys h.2]

end

instance : DecidableEq Json := fun a b =>
  if h : Json.beq a b = true then isTrue (jsonBeqEq a b h)
  else isFalse (fun he => h (he ▸ jsonBeqRefl a))

/-- Lookup of a key in a decoded dict, first match (dict.get). -/
def lookupKv : List (String × Json) → String → Option Json
  | [], _ => none
  | (k2, v) :: rest, k => if k2 = k then some v else lookupKv rest k

/-- Python dict.get(k) (None when the receiver is not a dict never happens in
the sources; we return none there as well). -/
def Json.get : Json → String → Option Json
  | .obj kvs, k => lookupKv kvs k
  | _, _ => none

/-- Python `k in data` for a dict. -/
def Json.hasKey (j : Json) (k : String) : Bool := (j.get k).isSome

/-- Python truthiness of a JSON value. -/
def Json.truthy : Json → Bool
  | .null => false
  | .bool b => b
  | .num n => n != 0
  | .str s => s ≠ ""
  | .arr xs => !xs.isEmpty
  | .obj kvs => !kvs.isEmpty

/-- Python `a or b` where a and b are dict.get results (None = none).
Returns the left value when it is truthy, otherwise the right operand. -/
def pyOr (a b : Option Json) : Option Json :=
  match a with
  | some v => if v.truthy then some v else b
  | none => b

/-- Truthiness of a possibly-absent value (Python `if x:` where x may be None). -/
def pyTruthy (a : Option Json) : Bool :=
  match a with
  | some v => v.truthy
  | none => false

/-- Prefix test on char lists (used by the substring test below). -/
def charsPre : List Char → List Char → Bool
  | [], _ => true
  | _ :: _, [] => false
  | a :: as, b :: bs => a == b && charsPre as bs

/-- Infix test on char lists. -/
def charsSub (needle : List Char) : List Char → Bool
  | [] => needle.isEmpty
  | c :: rest => charsPre needle (c :: rest) || charsSub needle rest

/-- Python `needle in hay` on strings (substring test). -/
def hasSubstr (needle hay : String) : Bool := charsSub needle.toList hay.toList

/-- String escaping for json.dumps (quote and backslash; the sources only
ever probe the dump for fixed alphanumeric key names). -/
def escapeJsonChar (c : Char) : String :=
  if c = '"' then "\\\"" else if c = '\\' then "\\\\" else String.singleton c

def escapeJson (s : String) : String := String.join (s.toList.map escapeJsonChar)

mutual

/-- Model of Python json.dumps with default separators. -/
def Json.dumps : Json → String
  | .null => "null"
  | .bool true => "true"
  | .bool false => "false"
  | .num n => toString n
  | .str s => "\"" ++ escapeJson s ++ "\""
  | .arr xs => "[" ++ dumpsList xs ++ "]"
  | .obj kvs => "\x7b" ++ dumpsObj kvs ++ "\x7d"

def dumpsList : List Json → String
  | [] => ""
  | [x] => Json.dumps x
  | x :: y :: xs => Json.dumps x ++ ", " ++ dumpsList (y :: xs)

def dumpsObj : List (String × Json) → String
  | [] => ""
  | [(k, v)] => "\"" ++ escapeJson k ++ "\": " ++ Json.dumps v
  | (k, v) :: p :: xs =>
      "\"" ++ escapeJson k ++ "\": " ++ Json.dumps v ++ ", " ++ dumpsObj (p :: xs)

end

/-- Python `any(k in data for k in ks)`. -/
def hasAnyKey (j : Json) (ks : List String) : Bool := ks.any (fun k => j.hasKey k)

/-!
## Entity extractors

Each recursive extractor in the sources takes a `depth` argument and returns
`[]` as soon as `depth` exceeds a bound (10 for download_stealth.py and
download_browser.py, 8 for download_local.py), and every recursive call
passes `depth + 1`.  We embed each one as a helper on the remaining fuel
`bound + 1 - depth` (so `fuel = 0` is exactly `depth > bound`), plus a
wrapper with the source signature `(data, depth)`.
-/

/-- Body of find_images_recursive from download_stealth.py, on fuel. -/
def stealthFindGo : Nat → Json → List Json
  | 0, _ => []
  | f + 1, data =>
    match data with
    | .arr items =>
        items.flatMap (fun item =>
          match item with
          | .obj kvs =>
              if (Json.obj kvs).hasKey "response_id" then [Json.obj kvs]
              else stealthFindGo f (.obj kvs)
          | .arr xs => stealthFindGo f (.arr xs)
          | _ => [])
    | .obj kvs =>
        (if (Json.obj kvs).hasKey "response_id" then [Json.obj kvs] else []) ++
        kvs.flatMap (fun kv =>
          match kv.2 with
          | .arr xs => stealthFindGo f (.arr xs)
          | .obj kvs2 => stealthFindGo f (.obj kvs2)
          | _ => [])
    | _ => []

/-- find_images_recursive(data, depth) from download_stealth.py: returns []
once depth > 10, emits a dict as soon as it has the key response_id
(without descending when the dict is a list element, but after descending
its values when it is reached as a dict), otherwise walks lists and dict
values. -/
def find_images_recursive (data : Json) (depth : Nat) : List Json :=
  stealthFindGo (11 - depth) data

/-- Keys tested on a list element by _find_images_recursive (download_browser.py). -/
def browserItemKeys : List String :=
  ["response_id", "url", "image_url", "thumbnail_url", "prompt"]

/-- Keys tested on a nested dict by _find_images_recursive (download_browser.py). -/
def browserDictKeys : List String :=
  ["response_id", "url", "image_url", "thumbnail_url"]

/-- Body of IdeogramBrowserDownloader._find_images_recursive, on fuel. -/
def browserFindGo : Nat → Json → List Json
  | 0, _ => []
  | f + 1, data =>
    match data with
    | .arr items =>
        items.flatMap (fun item =>
          match item with
          | .obj kvs =>
              if hasAnyKey (.obj kvs) browserItemKeys then [Json.obj kvs]
              else browserFindGo f (.obj kvs)
          | .arr xs => browserFindGo f (.arr xs)
          | _ => [])
    | .obj kvs =>
        (if hasAnyKey (.obj kvs) browserDictKeys && (Json.obj kvs).hasKey "prompt"
         then [Json.obj kvs] else []) ++
        kvs.flatMap (fun kv =>
          match kv.2 with
          | .arr xs => browserFindGo f (.arr xs)
          | .obj kvs2 => browserFindGo f (.obj kvs2)
          | _ => [])
    | _ => []

/-- _find_images_recursive(data, depth) from download_browser.py (bound 10). -/
def browser_find_images_recursive (data : Json) (depth : Nat) : List Json :=
  browserFindGo (11 - depth) data

/-- Keys tested on a list element by _find_images (download_local.py). -/
def localItemKeys : List String := ["response_id", "url", "thumbnail_url"]

/-- Body of IdeogramDownloader._find_images (download_local.py), on fuel.
Note the source recurses into every non-qualifying list element, dict or
not (the recursion returns [] on primitives). -/
def localFindGo : Nat → Json → List Json
  | 0, _ => []
  | f + 1, data =>
    match data with
    | .arr items =>
        items.flatMap (fun item =>
          match item with
          | .obj kvs =>
              if hasAnyKey (.obj kvs) localItemKeys then [Json.obj kvs]
              else localFindGo f (.obj kvs)
          | other => localFindGo f other)
    | .obj kvs =>
        (if hasAnyKey (.obj kvs) ["response_id"] && (Json.obj kvs).hasKey "prompt"
         then [Json.obj kvs] else []) ++
        kvs.flatMap (fun kv =>
          match kv.2 with
          | .arr xs => localFindGo f (.arr xs)
          | .obj kvs2 => localFindGo f (.obj kvs2)
          | _ => [])
    | _ => []

/-- _find_images(data, depth) from download_local.py (bound 8). -/
def local_find_images (data : Json) (depth : Nat) : List Json :=
  localFindGo (9 - depth) data

/-- The named wrapper keys probed first by _extract_images (download.py). -/
def extractListKeys : List String :=
  ["responses", "images", "results", "data", "creations", "items", "generations"]

/-- First key of the candidate list whose value is a list (download.py,
first loop of _extract_images; an empty list value is returned as-is). -/
def findListKey (kvs : List (String × Json)) : List String → Option (List Json)
  | [] => none
  | k :: ks =>
      match lookupKv kvs k with
      | some (.arr xs) => some xs
      | _ => findListKey kvs ks

/-- Second loop of _extract_images (download.py): first value that is a
nonempty list whose head is a dict. -/
def findFirstNestedList : List (String × Json) → Option (List Json)
  | [] => none
  | (_, .arr (x :: xs)) :: rest =>
      match x with
      | .obj _ => some (x :: xs)
      | _ => findFirstNestedList rest
  | _ :: rest => findFirstNestedList rest

/-- IdeogramDownloader._extract_images from download.py: a bare list is
returned whole; for a dict, try the known wrapper keys, then any value
that is a nonempty list of dicts; otherwise []. -/
def extract_images (data : Json) : List Json :=
  match data with
  | .arr xs => xs
  | .obj kvs =>
      match findListKey kvs extractListKeys with
      | some xs => xs
      | none =>
          match findFirstNestedList kvs with
          | some xs => xs
          | none => []
  | _ => []

/-!
## Pagination (download.py fetch_all_images)

The HTTP endpoint is abstracted as `pages : Nat → PageResp` (the request
for page n, whether issued as a page body field or a page query parameter).
`body = none` models a response whose body is not valid JSON, on which the
source's `resp.json()` raises an uncaught exception.
-/

structure PageResp where
  status : Nat
  body : Option Json
deriving DecidableEq

/-- Result of the pagination loop: a normal return with the accumulated
list, or an uncaught json-decode exception. -/
inductive FetchOutcome where
  | ok (images : List Json)
  | exn
deriving DecidableEq

/-- The `while True` loop of IdeogramDownloader.fetch_all_images
(download.py lines 201-231), on fuel; `none` means the loop was still
running after `fuel` iterations.  Note there is no deduplication: every
extracted entry of every page is appended. -/
def fetch_pages_loop (pages : Nat → PageResp) : Nat → Nat → List Json → Option FetchOutcome
  | 0, _, _ => none
  | fuel + 1, page, acc =>
      let resp := pages page
      if resp.status ≠ 200 then some (.ok acc)
      else
        match resp.body with
        | none => some .exn
        | some data =>
            let images := extract_images data
            if images.isEmpty then some (.ok acc)
            else fetch_pages_loop pages fuel (page + 1) (acc ++ images)

/-- IdeogramDownloader.fetch_all_images (download.py) with the endpoint
already chosen, starting at page 0 with an empty list. -/
def fetch_all_images (pages : Nat → PageResp) (fuel : Nat) : Option FetchOutcome :=
  fetch_pages_loop pages fuel 0 []

/-!
## Single-image download (download.py download_image)
-/

/-- Abstract HTTP GET result: status, content-type header and body length. -/
structure HttpResp where
  status : Nat
  contentType : String
  contentLen : Nat
deriving DecidableEq

/-- Outcome of one download attempt: the boolean the source returns and
the byte length of the file written, if any. -/
structure DlResult where
  success : Bool
  written : Option Nat
deriving DecidableEq

def BASE_URL : String := "https://ideogram.ai"

/-- Python str() as used by f-string interpolation of an identity value.
The identities the tool meets are strings or numbers; the container
fallback (never exercised by a theorem) reuses the JSON dump. -/
def jsonToPyStr : Json → String
  | .str s => s
  | .num n => toString n
  | .bool true => "True"
  | .bool false => "False"
  | .null => "None"
  | j => j.dumps

/-- IdeogramDownloader.download_image from download.py (lines 254-306):
resolves a SINGLE url (direct-access url when response_id/id is truthy,
else the first truthy of url/image_url/thumbnail_url, else the entity
itself when it is a string), issues one GET, and returns False on any
non-200 status — there is no second candidate and no minimum size. -/
def http_download_image (image_info : Json) (transport : String → HttpResp) : DlResult :=
  let url : Option Json :=
    match image_info with
    | .obj _ =>
        let rid := pyOr (image_info.get "response_id") (image_info.get "id")
        if pyTruthy rid then
          some (.str (BASE_URL ++ "/api/images/direct/" ++ jsonToPyStr (rid.getD .null)))
        else
          pyOr (pyOr (image_info.get "url") (image_info.get "image_url"))
               (image_info.get "thumbnail_url")
    | .str s => some (.str s)
    | _ => none
  if pyTruthy url then
    match url with
    | some (.str s) =>
        let resp := transport s
        if resp.status ≠ 200 then ⟨false, none⟩
        else ⟨true, some resp.contentLen⟩
    | _ => ⟨false, none⟩
  else ⟨false, none⟩

/-!
## Whole run (download.py download_all)
-/

/-- Observable outcome of IdeogramDownloader.download_all:
whether (and with what content) metadata.json was written, whether the
"No images found to download." diagnostic was printed, and the
success/failed download counts. -/
structure RunReport where
  metadataWritten : Option (List Json)
  noImagesDiagnostic : Bool
  succeeded : Nat
  failedDownloads : Nat
deriving DecidableEq

/-- IdeogramDownloader.download_all (download.py lines 308-355): fetch all
images; on an empty result print the diagnostic and return WITHOUT
writing metadata.json; otherwise write metadata.json and then download
every image, counting successes and failures.  `none` = pagination still
running after `fuel` pages; `.error ()` = the uncaught decode exception
aborted the run. -/
def download_all (pages : Nat → PageResp) (transport : String → HttpResp) (fuel : Nat) :
    Option (Except Unit RunReport) :=
  match fetch_all_images pages fuel with
  | none => none
  | some .exn => some (.error ())
  | some (.ok images) =>
      if images.isEmpty then some (.ok ⟨none, true, 0, 0⟩)
      else
        let counts := images.foldl
          (fun (acc : Nat × Nat) img =>
            if (http_download_image img transport).success then (acc.1 + 1, acc.2)
            else (acc.1, acc.2 + 1)) (0, 0)
        some (.ok ⟨some images, false, counts.1, counts.2⟩)

/-!
## Response interception (download_browser.py / download_local.py)
-/

/-- One intercepted network response (the spec's Observer-feed event).
`body = none` models a body on which response.json() raises. -/
structure RespEvent where
  url : String
  status : Nat
  contentType : String
  body : Option Json
deriving DecidableEq

/-- One captured API response as stored in self.api_responses. -/
structure Captured where
  url : String
  data : Json
deriving DecidableEq

/-- Keywords probed in the dumped body by intercept_response. -/
def interceptKeywords : List String :=
  ["response_id", "thumbnail_url", "prompt", "image_url"]

/-- IdeogramBrowserDownloader.intercept_response (download_browser.py lines
36-53) as a transformer of the captured-response list.  A decode
exception is swallowed by the bare `except: pass`. -/
def intercept_response (st : List Captured) (r : RespEvent) : List Captured :=
  if hasSubstr "/api/" r.url && (r.status == 200) then
    if hasSubstr "json" r.contentType then
      match r.body with
      | none => st
      | some body =>
          if interceptKeywords.any (fun k => hasSubstr k (Json.dumps body)) then
            st ++ [⟨r.url, body⟩]
          else st
    else st
  else st

/-- IdeogramDownloader.on_response (download_local.py lines 43-68) as a
transformer of the captured-response list.  The user_id detection and the
progress print in the source read state but never touch
self.api_responses, so they are not part of the transformer. -/
def on_response (st : List Captured) (r : RespEvent) : List Captured :=
  if !(hasSubstr "/api/" r.url) then st
  else if r.status ≠ 200 then st
  else if !(hasSubstr "json" r.contentType) then st
  else
    match r.body with
    | none => st
    | some body => st ++ [⟨r.url, body⟩]

/-!
## Deduplication / canonical catalog
-/

/-- The identity chain `img.get('response_id') or img.get('id') or
img.get('request_id', '')` from extract_images_from_responses
(download_browser.py line 63). -/
def browser_identity (img : Json) : Json :=
  (pyOr (pyOr (img.get "response_id") (img.get "id"))
        (some ((img.get "request_id").getD (.str "")))).getD (.str "")

/-- Loop body of extract_images_from_responses: state is (seen_ids as an
ordered list, all_image_data); a record is appended only when its identity
is truthy and unseen. -/
def browser_absorb_step (acc : List Json × List Json) (img : Json) :
    List Json × List Json :=
  let imgId := browser_identity img
  if imgId.truthy = true ∧ imgId ∉ acc.1 then (acc.1 ++ [imgId], acc.2 ++ [img])
  else acc

/-- IdeogramBrowserDownloader.extract_images_from_responses
(download_browser.py lines 55-68). -/
def extract_images_from_responses (responses : List Captured) : List Json :=
  (responses.foldl
    (fun acc resp =>
      (browser_find_images_recursive resp.data 0).foldl browser_absorb_step acc)
    ([], [])).2

/-- A Python identity key: either a JSON value (response_id / id field) or
the CPython object id of the record itself.  Decoded JSON objects are
fresh, so each candidate occurrence gets a distinct object id, modelled by
a running counter; object ids (heap addresses) never collide with data
values. -/
inductive PyKey where
  | val (j : Json)
  | objId (n : Nat)
deriving DecidableEq

/-- The identity chain `rid = img.get('response_id') or img.get('id') or
id(img)` from extract_all_images (download_local.py line 94). -/
def local_identity (img : Json) (oid : Nat) : PyKey :=
  match pyOr (img.get "response_id") (img.get "id") with
  | some v => if v.truthy then .val v else .objId oid
  | none => .objId oid

/-- Loop body of extract_all_images (download_local.py lines 93-97): state
is (seen, all_image_data, next object id).  NOTE: there is no truthiness
check on rid — a record with no identity field at all is added under its
fresh object id. -/
def local_absorb_step (acc : List PyKey × List Json × Nat) (img : Json) :
    List PyKey × List Json × Nat :=
  let rid := local_identity img acc.2.2
  if rid ∉ acc.1 then (acc.1 ++ [rid], acc.2.1 ++ [img], acc.2.2 + 1)
  else (acc.1, acc.2.1, acc.2.2 + 1)

/-- IdeogramDownloader.extract_all_images (download_local.py lines 89-98). -/
def extract_all_images (responses : List Captured) : List Json :=
  (responses.foldl
    (fun acc resp => (local_find_images resp.data 0).foldl local_absorb_step acc)
    ([], [], 0)).2.1

/-- Observable outcome of steps 4-5 of IdeogramBrowserDownloader.run
(download_browser.py lines 229-271): raw_api_responses.json is always
written; metadata.json only when at least one image was extracted; the
full dump and the "No images found" diagnostic only when none was. -/
structure BrowserRunReport where
  rawDumpWritten : Bool
  metadataWritten : Option (List Json)
  fullDumpWritten : Bool
  noImagesDiagnostic : Bool
deriving DecidableEq

/-- The processing tail of IdeogramBrowserDownloader.run (the per-image
download loop that follows in the nonempty case does not touch these
outputs). -/
def browser_run_process (responses : List Captured) : BrowserRunReport :=
  let images := extract_images_from_responses responses
  if images.isEmpty then ⟨true, none, true, true⟩
  else ⟨true, some images, false, false⟩

/-!
## URL resolution (download_stealth.py get_best_url) and downloads
-/

/-- The parameter names of the size-stripping regex, in alternation order. -/
def sizeParamNames : List String := ["w", "h", "width", "height", "size", "quality"]

/-- After a `?` or `&`: try `name=` for each alternation branch in order
and consume the `[^&]*` value run; returns the rest of the text on a
match. -/
def matchSizeParamWith : List String → List Char → Option (List Char)
  | [], _ => none
  | p :: ps, cs =>
      if charsPre (p.toList ++ ['=']) cs then
        some ((cs.drop (p.length + 1)).dropWhile (fun c => c ≠ '&'))
      else matchSizeParamWith ps cs

def matchSizeParam (cs : List Char) : Option (List Char) :=
  matchSizeParamWith sizeParamNames cs

/-- Left-to-right scan of re.sub, resuming after each removed match; the
fuel is an upper bound on the characters consumed (each step consumes at
least one). -/
def stripGo : Nat → List Char → List Char
  | 0, cs => cs
  | f + 1, cs =>
      match cs with
      | [] => []
      | c :: rest =>
          if c = '?' ∨ c = '&' then
            match matchSizeParam rest with
            | some rest2 => stripGo f rest2
            | none => c :: stripGo f rest
          else c :: stripGo f rest

/-- The substitution `re.sub(r'[?&](w|h|width|height|size|quality)=[^&]*',
'', url)` from get_best_url (download_stealth.py line 371). -/
def stripSizeParams (url : String) : String :=
  String.mk (stripGo url.length url.toList)

/-- Result of get_best_url: Python returns None, returns a value (a string
in every well-typed case), or raises TypeError when a truthy non-iterable
URL field meets the `'thumbnail' in url` membership test. -/
inductive UrlRes where
  | none
  | val (j : Json)
  | typeError
deriving DecidableEq

/-- The thumbnail markers tested on the chosen URL, in source order. -/
def thumbMarkers : List String := ["thumbnail", "_thumb", "small"]

/-- The `for key in ['url', 'image_url', 'src', 'thumbnail_url']` fallback
loop of get_best_url.  Python `'thumbnail' in url` is a substring test on
a string, an element test on a list, a key test on a dict, and a TypeError
on a number or boolean; `re.sub` then raises TypeError on any non-string. -/
def bestUrlFields : List String → Json → UrlRes
  | [], _ => .none
  | k :: ks, img =>
      match img.get k with
      | some v =>
          if v.truthy then
            match v with
            | .str u =>
                if thumbMarkers.any (fun m => hasSubstr m u) then
                  .val (.str (stripSizeParams u))
                else .val (.str u)
            | .num _ => .typeError
            | .bool _ => .typeError
            | .arr xs =>
                if thumbMarkers.any (fun m => xs.contains (Json.str m)) then .typeError
                else .val (.arr xs)
            | .obj kvs =>
                if thumbMarkers.any (fun m => (Json.obj kvs).hasKey m) then .typeError
                else .val (.obj kvs)
            | .null => .typeError
          else bestUrlFields ks img
      | none => bestUrlFields ks img

/-- get_best_url(img) from download_stealth.py (lines 356-376): a SINGLE
most-preferred URL — the direct-access URL when response_id/id is truthy
(no stripping, no further candidates), else the first truthy of
url/image_url/src/thumbnail_url with size params stripped only when the
URL string itself contains a thumbnail marker, else the entity itself when
it is a bare string, else None. -/
def get_best_url (img : Json) : UrlRes :=
  match img with
  | .obj _ =>
      let rid := pyOr (img.get "response_id") (img.get "id")
      if pyTruthy rid then
        .val (.str (BASE_URL ++ "/api/images/direct/" ++ jsonToPyStr (rid.getD .null)))
      else bestUrlFields ["url", "image_url", "src", "thumbnail_url"] img
  | .str s => .val (.str s)
  | _ => .none

/-- download_image(driver, url, filepath) from download_stealth.py (lines
297-330): one in-browser XHR; success needs HTTP 200, a nonempty body and
MORE than 1000 bytes; anything else (and any exception) returns False.
Returns the source's boolean together with the byte length written. -/
def download_image (transport : String → HttpResp) (url : String) : Bool × Option Nat :=
  let resp := transport url
  if resp.status == 200 && resp.contentLen != 0 then
    if resp.contentLen > 1000 then (true, some resp.contentLen) else (false, none)
  else (false, none)

/-- The fallback `thumb = (img.get('thumbnail_url') or img.get('url', ''))
if isinstance(img, dict) else ''` (download_stealth.py line 271). -/
def stealthThumbFallback (img : Json) : Json :=
  match img with
  | .obj _ =>
      (pyOr (img.get "thumbnail_url") (some ((img.get "url").getD (.str "")))).getD (.str "")
  | _ => .str ""

/-- Per-entity record of one iteration of the download loop of
download_stealth.main (lines 253-284): the XHR URLs attempted in order,
whether a file was written and with how many bytes, and which URL won. -/
structure EntityDl where
  attempted : List String
  success : Bool
  written : Option Nat
  urlUsed : Option String
deriving DecidableEq

/-- The thumbnail fallback of the stealth download loop (download_stealth.py
lines 270-279): when the raw thumbnail_url/url field is truthy and differs
from the first URL it is tried once; `attempted` carries the URLs tried so
far and `u` the value compared against (`thumb != url`). -/
def stealth_fallback (transport : String → HttpResp) (img : Json)
    (attempted : List String) (u : Json) : Except Unit EntityDl :=
  let thumb := stealthThumbFallback img
  if thumb.truthy = true ∧ thumb ≠ u then
    match thumb with
    | .str t =>
        let second := download_image transport t
        if second.1 then .ok ⟨attempted ++ [t], true, second.2, some t⟩
        else .ok ⟨attempted ++ [t], false, none, none⟩
    | _ => .ok ⟨attempted, false, none, none⟩
  else .ok ⟨attempted, false, none, none⟩

/-- First attempt of the stealth download loop on the resolved URL value:
a string URL is fetched once and kept if the fetch succeeds; a truthy
non-string value reaches the browser XHR, which fails without issuing a
request; on failure the thumbnail fallback runs. -/
def stealth_try_first (transport : String → HttpResp) (img : Json) : Json → Except Unit EntityDl
  | .str url =>
      let r := download_image transport url
      if r.1 then .ok ⟨[url], true, r.2, some url⟩
      else stealth_fallback transport img [url] (.str url)
  | u => stealth_fallback transport img [] u

/-- Dispatch on the get_best_url result (`url = get_best_url(img)`;
`if not url: failed += 1; continue`). -/
def stealth_entity_after (transport : String → HttpResp) (img : Json) :
    UrlRes → Except Unit EntityDl
  | .typeError => .error ()
  | .none => .ok ⟨[], false, none, none⟩
  | .val u =>
      if u.truthy = false then .ok ⟨[], false, none, none⟩
      else stealth_try_first transport img u

/-- One iteration of the stealth download loop: resolve the best URL, try
it, and on failure try the raw thumbnail_url/url field once (when truthy
and different).  A TypeError escaping get_best_url aborts the whole run
(`.error`); every other path records an outcome. -/
def stealth_entity_download (transport : String → HttpResp) (img : Json) :
    Except Unit EntityDl :=
  stealth_entity_after transport img (get_best_url img)

/-!
## Concrete scenarios
-/

/-- Two distinct entity records as served by a paginated endpoint. -/
def ent1 : Json := .obj [("response_id", .str "r1"), ("prompt", .str "first")]

def ent2 : Json := .obj [("response_id", .str "r2"), ("prompt", .str "second")]

/-- A page body carrying ent1 and ent2 under the standard wrapper key. -/
def twoEntityBody : Json := .obj [("responses", .arr [ent1, ent2])]

/-- An endpoint that returns the SAME two entities on every page (page 1
onward yields nothing new). -/
def repeatPages : Nat → PageResp := fun _ => ⟨200, some twoEntityBody⟩

/-- A page body whose wrapper list is empty (zero raw entries). -/
def emptyBody : Json := .obj [("responses", .arr [])]

/-- Pages 0 and 1 carry the same two entities, page 2 onward is empty. -/
def threePages : Nat → PageResp := fun n =>
  if n < 2 then ⟨200, some twoEntityBody⟩ else ⟨200, some emptyBody⟩

/-- Page 0 decodes fine; page 1 is HTTP 200 with a non-JSON body. -/
def decodePages : Nat → PageResp := fun n =>
  if n = 0 then ⟨200, some twoEntityBody⟩ else ⟨200, none⟩

/-- Every page is HTTP 200 JSON but contains zero extractable entities. -/
def emptyRunPages : Nat → PageResp := fun _ => ⟨200, some emptyBody⟩

/-- A transport on which every GET fails with 404. -/
def transport404 : String → HttpResp := fun _ => ⟨404, "text/html", 0⟩

example : fetch_all_images repeatPages 10 = none := by rfl
example : fetch_all_images threePages 10 = some (.ok [ent1, ent2, ent1, ent2]) := by rfl
example : fetch_all_images decodePages 10 = some .exn := by rfl
example : download_all emptyRunPages transport404 5 = some (.ok ⟨none, true, 0, 0⟩) := by rfl
example : download_all decodePages transport404 5 = some (.error ()) := by rfl

/-- A record with a URL but no identity field at all. -/
def imgNoId : Json := .obj [("url", .str "https://cdn.example/a.png")]

/-- An entity nested INSIDE another entity (value of key "foo"). -/
def innerEnt : Json := .obj [("response_id", .str "b")]

def outerEnt : Json := .obj [("response_id", .str "a"), ("foo", innerEnt)]

/-- A record whose only identity-like key is a bare id plus a prompt. -/
def idPromptRec : Json := .obj [("id", .str "a"), ("prompt", .str "cat")]

/-- A record whose only key is a bare id. -/
def bareIdRec : Json := .obj [("id", .str "a")]

/-- The duplicated-identity payload of the spec's absorb test. -/
def dupA1 : Json := .obj [("response_id", .str "a"), ("prompt", .str "cat")]

def dupA2 : Json := .obj [("response_id", .str "a"), ("prompt", .str "cat2")]

def dupPayload : Json := .obj [("responses", .arr [dupA1, dupA2])]

example : extract_all_images [⟨"https://ideogram.ai/api/x", .arr [imgNoId]⟩] = [imgNoId] := by rfl
example : find_images_recursive outerEnt 0 = [outerEnt, innerEnt] := by rfl
example : find_images_recursive (.arr [idPromptRec]) 0 = [] := by rfl
example : browser_find_images_recursive (.arr [idPromptRec]) 0 = [idPromptRec] := by rfl
example : local_find_images (.arr [idPromptRec]) 0 = [] := by rfl
example : find_images_recursive (.arr [bareIdRec]) 0 = [] := by rfl
example : browser_find_images_recursive (.arr [bareIdRec]) 0 = [] := by rfl
example : local_find_images (.arr [bareIdRec]) 0 = [] := by rfl
example : extract_images_from_responses [⟨"u", dupPayload⟩] = [dupA1] := by rfl
example : extract_all_images [⟨"u", dupPayload⟩] = [dupA1] := by rfl
example : dupA1.get "prompt" = some (.str "cat") := by rfl

/-- The entity of the C8 scenario: identity xyz plus a thumbnail URL. -/
def ent8 : Json := .obj [("response_id", .str "xyz"), ("thumbnail_url", .str "https://x/t.png")]

def directXyz : String := "https://ideogram.ai/api/images/direct/xyz"

/-- Transport where the direct URL 404s and the thumbnail returns 200 with
50000 bytes. -/
def transport8 : String → HttpResp := fun u =>
  if u = "https://x/t.png" then ⟨200, "image/png", 50000⟩ else ⟨404, "text/html", 0⟩

/-- The entity of the C8 counterexample for download.py: identity xyz plus
an explicit url field that would succeed. -/
def ent8b : Json := .obj [("response_id", .str "xyz"), ("url", .str "https://x/full.png")]

def transport8b : String → HttpResp := fun u =>
  if u = "https://x/full.png" then ⟨200, "image/png", 50000⟩ else ⟨404, "text/html", 0⟩

example : stealth_entity_download transport8 ent8 =
    .ok ⟨[directXyz, "https://x/t.png"], true, some 50000, some "https://x/t.png"⟩ := by rfl
example : http_download_image ent8b transport8b = ⟨false, none⟩ := by rfl

/-- The entity of the C9 scenario: identity xyz and a thumbnail with a
resizing query parameter. -/
def ent9 : Json := .obj [("response_id", .str "xyz"), ("thumbnail_url", .str "https://x/img?w=100")]

example : get_best_url ent9 = .val (.str directXyz) := by rfl
example : stealth_entity_download transport404 ent9 =
    .ok ⟨[directXyz, "https://x/img?w=100"], false, none, none⟩ := by rfl
example : stripSizeParams "https://x/thumbnail_abc?w=100&h=50" = "https://x/thumbnail_abc" := by rfl
example : get_best_url (.obj [("url", .str "https://x/thumbnail_abc?w=100&h=50")]) =
    .val (.str "https://x/thumbnail_abc") := by rfl
example : get_best_url (.obj []) = .none := by rfl
example : get_best_url .null = .none := by rfl

/-- A 200 JSON entity-bearing response whose URL lacks /api/. -/
def rNonApi : RespEvent :=
  ⟨"https://ideogram.ai/assets/page", 200, "application/json", some twoEntityBody⟩

/-- A 200 JSON entity-bearing response on an /api/ URL. -/
def rApi : RespEvent :=
  ⟨"https://ideogram.ai/api/images", 200, "application/json", some twoEntityBody⟩

example : intercept_response [] rNonApi = [] := by rfl
example : on_response [] rNonApi = [] := by rfl
example : intercept_response [] rApi = [⟨rApi.url, twoEntityBody⟩] := by rfl
example : on_response [] rApi = [⟨rApi.url, twoEntityBody⟩] := by rfl

/-- Pages that always answer 404 (used to exercise the non-200 exit). -/
def notFoundPages : Nat → PageResp := fun _ => ⟨404, none⟩

/-- A transport on which every GET succeeds with a 2000-byte image. -/
def transportOK : String → HttpResp := fun _ => ⟨200, "image/png", 2000⟩

/-!
## Lemmas about the pagination loop
-/

/-- On the endpoint that repeats the same two entities forever, the loop
never returns: every page extracts two (raw) entries, so the empty-page
exit is never taken. -/
lemma repeatPages_never_stops (fuel : Nat) : ∀ (page : Nat) (acc : List Json),
    fetch_pages_loop repeatPages fuel page acc = none := by
  induction fuel with
  | zero => intro page acc; rfl
  | succ f ih => intro page acc; exact ih (page + 1) (acc ++ [ent1, ent2])

/-- The loop returns the accumulated list the first time a 200 page
extracts zero raw entries. -/
lemma loop_stops_on_empty (pages : Nat → PageResp) (fuel page : Nat) (acc : List Json)
    (b : Json) (hp : pages page = ⟨200, some b⟩) (hb : extract_images b = []) :
    fetch_pages_loop pages (fuel + 1) page acc = some (.ok acc) := by
  simp only [fetch_pages_loop, hp, hb]
  simp

/-- The loop returns the accumulated list on any non-200 page. -/
lemma loop_stops_on_bad_status (pages : Nat → PageResp) (fuel page : Nat)
    (acc : List Json) (h : (pages page).status ≠ 200) :
    fetch_pages_loop pages (fuel + 1) page acc = some (.ok acc) := by
  simp only [fetch_pages_loop]
  rw [if_pos h]

/-- A 200 page whose body does not decode as JSON raises out of the loop. -/
lemma loop_exn_on_decode (pages : Nat → PageResp) (fuel page : Nat)
    (acc : List Json) (h1 : (pages page).status = 200) (h2 : (pages page).body = none) :
    fetch_pages_loop pages (fuel + 1) page acc = some .exn := by
  simp only [fetch_pages_loop, h2]
  rw [if_neg (fun hh => hh h1)]

/-- The decode exception escapes fetch_all_images and aborts download_all. -/
lemma download_all_exn (pages : Nat → PageResp) (transport : String → HttpResp)
    (fuel : Nat) (h : fetch_all_images pages fuel = some .exn) :
    download_all pages transport fuel = some (.error ()) := by
  unfold download_all
  rw [h]

/-!
## Claim C1
-/

/-- C1: the claim states that pagination stops the first time a page yields
zero NEWLY extracted records, so that an endpoint repeating the same two
entities terminates after page 1 with a catalog of size 2.  The code
(download.py fetch_all_images) has no deduplication: after 10 pages of the
repeating endpoint the loop is still running (none), and in particular it
is still running when restarted at page 1 with the two entities already
collected — it did not stop after page 1. -/
theorem C1_counterexample :
    fetch_all_images repeatPages 10 = none ∧
    fetch_pages_loop repeatPages 3 1 [ent1, ent2] = none := ⟨rfl, rfl⟩

/-- C1 (amended): the loop stops the first time a page yields zero RAW
extracted entries; already-seen records count as progress and are appended
again, so (a) the repeating endpoint never terminates for any fuel, (b) a
200 page whose body extracts to [] ends the loop at once with the list
collected so far, and (c) two identical pages followed by an empty page
terminate with FOUR records, not two. -/
theorem C1_pagination_termination :
    (∀ fuel, fetch_all_images repeatPages fuel = none) ∧
    (∀ (pages : Nat → PageResp) (fuel page : Nat) (acc : List Json) (b : Json),
      pages page = ⟨200, some b⟩ → extract_images b = [] →
      fetch_pages_loop pages (fuel + 1) page acc = some (.ok acc)) ∧
    fetch_all_images threePages 10 = some (.ok [ent1, ent2, ent1, ent2]) :=
  ⟨fun fuel => repeatPages_never_stops fuel 0 [], loop_stops_on_empty, rfl⟩

/-- Witness for C1: the empty-extraction exit at a concrete input. -/
theorem C1_pagination_termination_witness :
    fetch_pages_loop emptyRunPages 1 0 [] = some (.ok []) :=
  C1_pagination_termination.2.1 emptyRunPages 0 0 [] emptyBody rfl rfl

/-!
## Claim C2
-/

/-- C2: the claim states a decode error during pagination is recoverable
(enumeration ends early, the run still finishes with what was collected).
In the code, page 1 of this scenario is HTTP 200 with a non-JSON body:
resp.json() raises, the exception is not caught anywhere in
fetch_all_images or download_all, and the run aborts, losing the two
entities collected from page 0. -/
theorem C2_counterexample :
    fetch_all_images decodePages 10 = some .exn ∧
    download_all decodePages transport404 10 = some (.error ()) := ⟨rfl, rfl⟩

/-- C2 (amended): a non-200 page ends enumeration early and yields what was
collected so far, but a decode error (200 with a non-JSON body) raises an
uncaught exception out of the pagination loop which aborts the whole run. -/
theorem C2_decode_error :
    (∀ (pages : Nat → PageResp) (fuel page : Nat) (acc : List Json),
      (pages page).status ≠ 200 →
      fetch_pages_loop pages (fuel + 1) page acc = some (.ok acc)) ∧
    (∀ (pages : Nat → PageResp) (fuel page : Nat) (acc : List Json),
      (pages page).status = 200 → (pages page).body = none →
      fetch_pages_loop pages (fuel + 1) page acc = some .exn) ∧
    (∀ (pages : Nat → PageResp) (transport : String → HttpResp) (fuel : Nat),
      fetch_all_images pages fuel = some .exn →
      download_all pages transport fuel = some (.error ())) :=
  ⟨loop_stops_on_bad_status, loop_exn_on_decode, download_all_exn⟩

/-- Witness for C2 at concrete inputs: the 404 exit, the decode exception
and its propagation into download_all. -/
theorem C2_decode_error_witness :
    fetch_pages_loop notFoundPages 1 0 [] = some (.ok []) ∧
    fetch_pages_loop decodePages 1 1 [ent1, ent2] = some .exn ∧
    download_all decodePages transportOK 10 = some (.error ()) :=
  ⟨C2_decode_error.1 notFoundPages 0 0 [] (by decide),
   C2_decode_error.2.1 decodePages 0 1 [ent1, ent2] rfl rfl,
   C2_decode_error.2.2 decodePages transportOK 10 rfl⟩

/-!
## Claim C3
-/

/-- C3: the claim states every run, including a zero-entity one, writes a
metadata file (an empty list when nothing was found).  In the code a
zero-entity run prints the diagnostic and returns BEFORE the metadata
write: download.py leaves metadataWritten = none, and the browser variant
likewise writes the debug dumps but no metadata file. -/
theorem C3_counterexample :
    download_all emptyRunPages transport404 5 = some (.ok ⟨none, true, 0, 0⟩) ∧
    browser_run_process [] = ⟨true, none, true, true⟩ := ⟨rfl, rfl⟩

/-- Helper for C3: shape of any normal download_all report. -/
lemma download_all_report (pages : Nat → PageResp) (transport : String → HttpResp)
    (fuel : Nat) (r : RunReport) (h : download_all pages transport fuel = some (.ok r)) :
    (r.metadataWritten = none ∧ r.noImagesDiagnostic = true) ∨
    (∃ images, images ≠ [] ∧ r.metadataWritten = some images ∧
      r.noImagesDiagnostic = false) := by
  unfold download_all at h
  cases hf : fetch_all_images pages fuel with
  | none => rw [hf] at h; simp at h
  | some o =>
      cases o with
      | exn => rw [hf] at h; simp at h
      | ok images =>
          rw [hf] at h
          by_cases he : images.isEmpty
          · simp only [he, if_true] at h
            cases h
            left
            exact ⟨rfl, rfl⟩
          · simp only [he, if_false, Bool.false_eq_true] at h
            cases h
            right
            exact ⟨images, by simpa using he, rfl, rfl⟩

/-- The let-free shape of browser_run_process. -/
lemma browser_run_process_eq (responses : List Captured) :
    browser_run_process responses =
      if (extract_images_from_responses responses).isEmpty then ⟨true, none, true, true⟩
      else ⟨true, some (extract_images_from_responses responses), false, false⟩ := rfl

/-- C3 (amended): a run that completes normally never crashes in the
download phase and always yields a report, but on zero extracted entities
it emits the diagnostic and writes NO metadata file: in both download.py
and the browser variant, a metadata file is written exactly when at least
one entity was extracted, and a metadata file containing the empty list is
never written.  (A decode failure during pagination still aborts the run,
see C2.) -/
theorem C3_zero_entity_run :
    (∀ (pages : Nat → PageResp) (transport : String → HttpResp) (fuel : Nat) (r : RunReport),
      download_all pages transport fuel = some (.ok r) →
      ((r.metadataWritten = none ↔ r.noImagesDiagnostic = true) ∧
        r.metadataWritten ≠ some [])) ∧
    (∀ responses : List Captured,
      ((browser_run_process responses).metadataWritten = none ↔
        (browser_run_process responses).noImagesDiagnostic = true) ∧
      (browser_run_process responses).metadataWritten ≠ some []) := by
  constructor
  · intro pages transport fuel r h
    rcases download_all_report pages transport fuel r h with ⟨h1, h2⟩ | ⟨images, hne, h1, h2⟩
    · rw [h1, h2]; simp
    · rw [h1, h2]
      refine ⟨by simp, ?_⟩
      simp [hne]
  · intro responses
    rw [browser_run_process_eq]
    by_cases he : (extract_images_from_responses responses).isEmpty
    · rw [if_pos he]; simp
    · rw [if_neg he]
      refine ⟨by simp, ?_⟩
      simp only [ne_eq, Option.some.injEq]
      intro hh
      rw [hh] at he
      simp at he

/-- Witness for C3 at the concrete zero-entity run. -/
theorem C3_zero_entity_run_witness :
    ((⟨none, true, 0, 0⟩ : RunReport).metadataWritten = none ↔
      (⟨none, true, 0, 0⟩ : RunReport).noImagesDiagnostic = true) ∧
    (⟨none, true, 0, 0⟩ : RunReport).metadataWritten ≠ some [] :=
  C3_zero_entity_run.1 emptyRunPages transport404 5 ⟨none, true, 0, 0⟩ rfl

/-!
## Claim C4
-/

/-- One absorb step of the browser deduplicator preserves: seen_ids is
exactly the image list mapped through browser_identity, seen_ids has no
duplicates, and every seen identity is truthy. -/
lemma browser_absorb_step_inv (acc : List Json × List Json) (img : Json)
    (h1 : acc.1 = acc.2.map browser_identity) (h2 : acc.1.Nodup)
    (h3 : ∀ k ∈ acc.1, k.truthy = true) :
    ((browser_absorb_step acc img).1 = (browser_absorb_step acc img).2.map browser_identity) ∧
    (browser_absorb_step acc img).1.Nodup ∧
    (∀ k ∈ (browser_absorb_step acc img).1, k.truthy = true) := by
  unfold browser_absorb_step
  by_cases hc : (browser_identity img).truthy = true ∧ browser_identity img ∉ acc.1
  · rw [if_pos hc]
    refine ⟨by simp [h1], ?_, ?_⟩
    · simp only [List.nodup_append, List.nodup_cons, List.not_mem_nil, not_false_iff,
        List.nodup_nil, and_true, true_and]
      refine ⟨h2, ?_⟩
      intro y hy
      simp only [List.mem_singleton]
      intro hxy
      exact hc.2 (hxy ▸ hy)
    · intro k hk
      rcases List.mem_append.mp hk with hk | hk
      · exact h3 k hk
      · rw [List.mem_singleton] at hk
        subst hk
        exact hc.1
  · rw [if_neg hc]
    exact ⟨h1, h2, h3⟩

/-- The absorb fold over one extracted-image list preserves the invariant. -/
lemma browser_absorb_fold_inv (imgs : List Json) :
    ∀ (acc : List Json × List Json),
    acc.1 = acc.2.map browser_identity → acc.1.Nodup → (∀ k ∈ acc.1, k.truthy = true) →
    ((imgs.foldl browser_absorb_step acc).1 =
        (imgs.foldl browser_absorb_step acc).2.map browser_identity) ∧
    (imgs.foldl browser_absorb_step acc).1.Nodup ∧
    (∀ k ∈ (imgs.foldl browser_absorb_step acc).1, k.truthy = true) := by
  induction imgs with
  | nil => intro acc h1 h2 h3; exact ⟨h1, h2, h3⟩
  | cons img imgs ih =>
      intro acc h1 h2 h3
      obtain ⟨g1, g2, g3⟩ := browser_absorb_step_inv acc img h1 h2 h3
      rw [List.foldl_cons]
      exact ih (browser_absorb_step acc img) g1 g2 g3

/-- The outer fold over all captured responses preserves the invariant. -/
lemma browser_responses_fold_inv (responses : List Captured) :
    ∀ (acc : List Json × List Json),
    acc.1 = acc.2.map browser_identity → acc.1.Nodup → (∀ k ∈ acc.1, k.truthy = true) →
    ((responses.foldl (fun acc resp =>
        (browser_find_images_recursive resp.data 0).foldl browser_absorb_step acc) acc).1 =
      (responses.foldl (fun acc resp =>
        (browser_find_images_recursive resp.data 0).foldl browser_absorb_step acc) acc).2.map
        browser_identity) ∧
    ((responses.foldl (fun acc resp =>
        (browser_find_images_recursive resp.data 0).foldl browser_absorb_step acc) acc).1.Nodup) ∧
    (∀ k ∈ (responses.foldl (fun acc resp =>
        (browser_find_images_recursive resp.data 0).foldl browser_absorb_step acc) acc).1,
      k.truthy = true) := by
  induction responses with
  | nil => intro acc h1 h2 h3; exact ⟨h1, h2, h3⟩
  | cons r rs ih =>
      intro acc h1 h2 h3
      obtain ⟨g1, g2, g3⟩ :=
        browser_absorb_fold_inv (browser_find_images_recursive r.data 0) acc h1 h2 h3
      rw [List.foldl_cons]
      exact ih _ g1 g2 g3

/-- C4: the claim states a record lacking every identity field is never
added to the catalog.  In download_local.py the identity fallback is the
CPython object id — always truthy — so a record with no identity field IS
added; here a record whose only field is a url enters the catalog. -/
theorem C4_counterexample :
    extract_all_images [⟨"https://ideogram.ai/api/x", .arr [imgNoId]⟩] = [imgNoId] ∧
    imgNoId.get "response_id" = none ∧ imgNoId.get "id" = none := ⟨rfl, rfl, rfl⟩

/-- C4 (amended): in the browser variant the invariant holds — catalog
identities are pairwise distinct and always truthy (identity-less records
are excluded) — but in the local variant an identity-less record is added
under a fresh synthetic object id, so the same identity-less record can
even enter the catalog twice. -/
theorem C4_catalog_identity :
    (∀ responses : List Captured,
      ((extract_images_from_responses responses).map browser_identity).Nodup ∧
      ∀ img ∈ extract_images_from_responses responses,
        (browser_identity img).truthy = true) ∧
    extract_all_images [⟨"u", .arr [imgNoId, imgNoId]⟩] = [imgNoId, imgNoId] := by
  constructor
  · intro responses
    obtain ⟨g1, g2, g3⟩ := browser_responses_fold_inv responses ([], []) rfl List.nodup_nil
      (by intro k hk; simp at hk)
    unfold extract_images_from_responses
    constructor
    · rw [← g1]; exact g2
    · intro img himg
      exact g3 _ (by rw [g1]; exact List.mem_map_of_mem browser_identity himg)
  · rfl

/-- Witness for C4 at a concrete catalog member. -/
theorem C4_catalog_identity_witness :
    (browser_identity dupA1).truthy = true :=
  (C4_catalog_identity.1 [⟨"u", dupPayload⟩]).2 dupA1 (by decide)

/-!
## Claim C5
-/

/-- A second nested-entity example (entity containing a list of entities). -/
def innerEnt2 : Json := .obj [("response_id", .str "d")]

def cOuter : Json := .obj [("response_id", .str "c"), ("children", .arr [innerEnt2])]

/-- Browser-variant nested example: an image entry containing an image entry. -/
def bInner : Json := .obj [("url", .str "u2"), ("prompt", .str "p2")]

def bOuter : Json := .obj [("url", .str "u"), ("prompt", .str "p"), ("sub", bInner)]

/-- In the stealth extractor a qualifying dict met as a LIST ELEMENT is
emitted alone and its children are never descended. -/
lemma stealth_list_element_no_descent (kvs : List (String × Json)) (depth : Nat)
    (hd : depth ≤ 10) (hk : (Json.obj kvs).hasKey "response_id" = true) :
    find_images_recursive (.arr [.obj kvs]) depth = [.obj kvs] := by
  unfold find_images_recursive
  obtain ⟨f, hf⟩ : ∃ f, 11 - depth = f + 1 := ⟨10 - depth, by omega⟩
  rw [hf]
  simp [stealthFindGo, hk]

/-- C5: the claim states an emitted mapping's children are never descended,
so no descendant of an emitted mapping is also emitted.  In the code the
DICT branch of find_images_recursive appends a qualifying dict and then
still walks all its values: here the emitted outer entity's own child
(the value of its key "foo") is emitted as well. -/
theorem C5_counterexample :
    find_images_recursive outerEnt 0 = [outerEnt, innerEnt] ∧
    outerEnt.get "foo" = some innerEnt := ⟨rfl, rfl⟩

/-- C5 (amended): a qualifying mapping met as a list element is emitted
without descending into it, but a qualifying mapping met as a dict (the
payload root or a dict value) is emitted AND its values are still walked,
so a container and its own sub-entities can both be emitted — in the
stealth extractor and in the browser extractor alike. -/
theorem C5_no_descent :
    (∀ (kvs : List (String × Json)) (depth : Nat), depth ≤ 10 →
      (Json.obj kvs).hasKey "response_id" = true →
      find_images_recursive (.arr [.obj kvs]) depth = [.obj kvs]) ∧
    find_images_recursive cOuter 0 = [cOuter, innerEnt2] ∧
    browser_find_images_recursive bOuter 0 = [bOuter, bInner] ∧
    bOuter.get "sub" = some bInner :=
  ⟨stealth_list_element_no_descent, rfl, rfl, rfl⟩

/-- Witness for C5: list-element non-descent at a concrete entity whose
child is itself entity-shaped. -/
theorem C5_no_descent_witness :
    find_images_recursive
      (.arr [.obj [("response_id", Json.str "w"),
        ("kid", Json.obj [("response_id", Json.str "z")])]]) 3 =
      [.obj [("response_id", Json.str "w"),
        ("kid", Json.obj [("response_id", Json.str "z")])]] :=
  C5_no_descent.1
    [("response_id", Json.str "w"), ("kid", Json.obj [("response_id", Json.str "z")])]
    3 (by omega) rfl

/-!
## Claim C6
-/

/-- Every mapping the stealth extractor ever emits contains response_id. -/
lemma stealthFindGo_mem (f : Nat) : ∀ (j x : Json), x ∈ stealthFindGo f j →
    x.hasKey "response_id" = true := by
  induction f with
  | zero => intro j x hx; simp [stealthFindGo] at hx
  | succ f ih =>
      intro j x hx
      cases j with
      | null => simp [stealthFindGo] at hx
      | bool b => simp [stealthFindGo] at hx
      | num n => simp [stealthFindGo] at hx
      | str s => simp [stealthFindGo] at hx
      | arr items =>
          simp only [stealthFindGo, List.mem_flatMap] at hx
          obtain ⟨item, hitem, hx⟩ := hx
          cases item with
          | obj kvs =>
              by_cases hk : (Json.obj kvs).hasKey "response_id" = true
              · simp only [hk, if_true, List.mem_singleton] at hx
                subst hx; exact hk
              · simp only [hk, if_false] at hx
                exact ih _ _ (by simpa using hx)
          | arr xs => exact ih _ _ (by simpa using hx)
          | null => simp at hx
          | bool b => simp at hx
          | num n => simp at hx
          | str s => simp at hx
      | obj kvs =>
          simp only [stealthFindGo, List.mem_append, List.mem_flatMap] at hx
          rcases hx with hx | ⟨kv, hkv, hx⟩
          · by_cases hk : (Json.obj kvs).hasKey "response_id" = true
            · simp only [hk, if_true, List.mem_singleton] at hx
              subst hx; exact hk
            · simp only [hk, if_false] at hx
              simp at hx
          · rcases kv with ⟨k, v⟩
            cases v with
            | arr xs => exact ih _ _ (by simpa using hx)
            | obj kvs2 => exact ih _ _ (by simpa using hx)
            | null => simp at hx
            | bool b => simp at hx
            | num n => simp at hx
            | str s => simp at hx

/-- Every mapping the browser extractor ever emits has one of the five
item keys (response_id / url / image_url / thumbnail_url / prompt). -/
lemma browserFindGo_mem (f : Nat) : ∀ (j x : Json), x ∈ browserFindGo f j →
    hasAnyKey x browserItemKeys = true := by
  induction f with
  | zero => intro j x hx; simp [browserFindGo] at hx
  | succ f ih =>
      intro j x hx
      cases j with
      | null => simp [browserFindGo] at hx
      | bool b => simp [browserFindGo] at hx
      | num n => simp [browserFindGo] at hx
      | str s => simp [browserFindGo] at hx
      | arr items =>
          simp only [browserFindGo, List.mem_flatMap] at hx
          obtain ⟨item, hitem, hx⟩ := hx
          cases item with
          | obj kvs =>
              by_cases hk : hasAnyKey (Json.obj kvs) browserItemKeys = true
              · simp only [hk, if_true, List.mem_singleton] at hx
                subst hx; exact hk
              · simp only [hk, if_false] at hx
                exact ih _ _ (by simpa using hx)
          | arr xs => exact ih _ _ (by simpa using hx)
          | null => simp at hx
          | bool b => simp at hx
          | num n => simp at hx
          | str s => simp at hx
      | obj kvs =>
          simp only [browserFindGo, List.mem_append, List.mem_flatMap] at hx
          rcases hx with hx | ⟨kv, hkv, hx⟩
          · by_cases hk : (hasAnyKey (Json.obj kvs) browserDictKeys &&
                (Json.obj kvs).hasKey "prompt") = true
            · simp only [hk, if_true, List.mem_singleton] at hx
              subst hx
              rw [Bool.and_eq_true] at hk
              have h4 := hk.1
              simp only [hasAnyKey, browserDictKeys, browserItemKeys, List.any_cons,
                List.any_nil, Bool.or_eq_true, Bool.or_false] at h4 ⊢
              tauto
            · simp only [hk, if_false] at hx
              simp at hx
          · rcases kv with ⟨k, v⟩
            cases v with
            | arr xs => exact ih _ _ (by simpa using hx)
            | obj kvs2 => exact ih _ _ (by simpa using hx)
            | null => simp at hx
            | bool b => simp at hx
            | num n => simp at hx
            | str s => simp at hx

/-- Every mapping the local extractor ever emits has one of the three
item keys (response_id / url / thumbnail_url). -/
lemma localFindGo_mem (f : Nat) : ∀ (j x : Json), x ∈ localFindGo f j →
    hasAnyKey x localItemKeys = true := by
  induction f with
  | zero => intro j x hx; simp [localFindGo] at hx
  | succ f ih =>
      intro j x hx
      cases j with
      | null => simp [localFindGo] at hx
      | bool b => simp [localFindGo] at hx
      | num n => simp [localFindGo] at hx
      | str s => simp [localFindGo] at hx
      | arr items =>
          simp only [localFindGo, List.mem_flatMap] at hx
          obtain ⟨item, hitem, hx⟩ := hx
          cases item with
          | obj kvs =>
              by_cases hk : hasAnyKey (Json.obj kvs) localItemKeys = true
              · simp only [hk, if_true, List.mem_singleton] at hx
                subst hx; exact hk
              · simp only [hk, if_false] at hx
                exact ih _ _ (by simpa using hx)
          | arr xs => exact ih _ _ (by simpa using hx)
          | null => exact ih _ _ (by simpa using hx)
          | bool b => exact ih _ _ (by simpa using hx)
          | num n => exact ih _ _ (by simpa using hx)
          | str s => exact ih _ _ (by simpa using hx)
      | obj kvs =>
          simp only [localFindGo, List.mem_append, List.mem_flatMap] at hx
          rcases hx with hx | ⟨kv, hkv, hx⟩
          · by_cases hk : (hasAnyKey (Json.obj kvs) ["response_id"] &&
                (Json.obj kvs).hasKey "prompt") = true
            · simp only [hk, if_true, List.mem_singleton] at hx
              subst hx
              rw [Bool.and_eq_true] at hk
              have h1 := hk.1
              simp only [hasAnyKey, localItemKeys, List.any_cons, List.any_nil,
                Bool.or_eq_true, Bool.or_false] at h1 ⊢
              tauto
            · simp only [hk, if_false] at hx
              simp at hx
          · rcases kv with ⟨k, v⟩
            cases v with
            | arr xs => exact ih _ _ (by simpa using hx)
            | obj kvs2 => exact ih _ _ (by simpa using hx)
            | null => simp at hx
            | bool b => simp at hx
            | num n => simp at hx
            | str s => simp at hx

/-- C6: the claim states a mapping with id together with a descriptive key
such as prompt IS emitted as an entity candidate.  The stealth extractor
(find_images_recursive in download_stealth.py) qualifies a mapping only on
response_id: the id+prompt mapping is not emitted anywhere in this
payload. -/
theorem C6_counterexample :
    find_images_recursive (.arr [idPromptRec]) 0 = [] ∧
    idPromptRec.get "id" = some (.str "a") ∧
    idPromptRec.get "prompt" = some (.str "cat") := ⟨rfl, rfl, rfl⟩

/-- C6 (amended): the three extractors use different qualification rules,
none of them the claimed one.  Stealth emits only mappings containing
response_id; the browser variant emits only mappings having one of
response_id/url/image_url/thumbnail_url/prompt; the local variant only
mappings having one of response_id/url/thumbnail_url.  Hence a bare id is
never emitted by any variant (it has none of those keys), and id+prompt is
emitted by the browser list branch but not by stealth or local. -/
theorem C6_classification :
    (∀ (data : Json) (depth : Nat) (x : Json), x ∈ find_images_recursive data depth →
      x.hasKey "response_id" = true) ∧
    (∀ (data : Json) (depth : Nat) (x : Json), x ∈ browser_find_images_recursive data depth →
      hasAnyKey x browserItemKeys = true) ∧
    (∀ (data : Json) (depth : Nat) (x : Json), x ∈ local_find_images data depth →
      hasAnyKey x localItemKeys = true) ∧
    browser_find_images_recursive (.arr [idPromptRec]) 0 = [idPromptRec] ∧
    local_find_images (.arr [idPromptRec]) 0 = [] ∧
    bareIdRec.hasKey "response_id" = false ∧
    hasAnyKey bareIdRec browserItemKeys = false ∧
    hasAnyKey bareIdRec localItemKeys = false ∧
    idPromptRec.hasKey "response_id" = false ∧
    hasAnyKey idPromptRec localItemKeys = false :=
  ⟨fun data depth x hx => stealthFindGo_mem (11 - depth) data x hx,
   fun data depth x hx => browserFindGo_mem (11 - depth) data x hx,
   fun data depth x hx => localFindGo_mem (9 - depth) data x hx,
   rfl, rfl, rfl, rfl, rfl, rfl, rfl⟩

/-- Witness for C6: each emitted-implies-keyed clause applied at a
concretely emitted mapping. -/
theorem C6_classification_witness :
    outerEnt.hasKey "response_id" = true ∧
    hasAnyKey bOuter browserItemKeys = true ∧
    hasAnyKey dupA1 localItemKeys = true :=
  ⟨C6_classification.1 outerEnt 0 outerEnt (by decide),
   C6_classification.2.1 bOuter 0 bOuter (by decide),
   C6_classification.2.2.1 (.arr [dupA1]) 0 dupA1 (by decide)⟩

/-!
## Claim C7
-/

/-- C7 (confirmed): absorbing a candidate whose identity key is already in
seen_ids is a no-op in both deduplicators — the catalog and the seen set
are unchanged, so the first-seen record and its fields are retained — and
the spec's concrete payload with two records of identity "a" yields
exactly one catalog entry whose prompt is "cat". -/
theorem C7_absorb_idempotent :
    (∀ (seen catalog : List Json) (img : Json),
      browser_identity img ∈ seen →
      browser_absorb_step (seen, catalog) img = (seen, catalog)) ∧
    (∀ (seen : List PyKey) (catalog : List Json) (ctr : Nat) (img : Json),
      local_identity img ctr ∈ seen →
      (local_absorb_step (seen, catalog, ctr) img).1 = seen ∧
      (local_absorb_step (seen, catalog, ctr) img).2.1 = catalog) ∧
    extract_images_from_responses [⟨"u", dupPayload⟩] = [dupA1] ∧
    extract_all_images [⟨"u", dupPayload⟩] = [dupA1] ∧
    dupA1.get "prompt" = some (.str "cat") := by
  refine ⟨?_, ?_, rfl, rfl, rfl⟩
  · intro seen catalog img h
    unfold browser_absorb_step
    rw [if_neg (fun hc => hc.2 h)]
  · intro seen catalog ctr img h
    unfold local_absorb_step
    rw [if_neg (fun hc => hc h)]
    exact ⟨rfl, rfl⟩

/-- Witness for C7: re-absorbing identity "a" at concrete states. -/
theorem C7_absorb_idempotent_witness :
    browser_absorb_step ([Json.str "a"], [dupA1]) dupA2 = ([Json.str "a"], [dupA1]) ∧
    (local_absorb_step ([PyKey.val (Json.str "a")], [dupA1], 1) dupA2).1 =
      [PyKey.val (Json.str "a")] ∧
    (local_absorb_step ([PyKey.val (Json.str "a")], [dupA1], 1) dupA2).2.1 = [dupA1] :=
  ⟨C7_absorb_idempotent.1 [Json.str "a"] [dupA1] dupA2 (by decide),
   (C7_absorb_idempotent.2.1 [PyKey.val (Json.str "a")] [dupA1] 1 dupA2 (by decide)).1,
   (C7_absorb_idempotent.2.1 [PyKey.val (Json.str "a")] [dupA1] 1 dupA2 (by decide)).2⟩

/-!
## Claim C8
-/

/-- A transport on which every GET succeeds but with a tiny body. -/
def transportSmall : String → HttpResp := fun _ => ⟨200, "image/png", 500⟩

lemma truthy_str (s : String) (h : s ≠ "") : (Json.str s).truthy = true := by
  simp [Json.truthy, h]

lemma base_url_append_ne (x : String) :
    BASE_URL ++ "/api/images/direct/" ++ x ≠ "" := by
  intro h
  have hl : (BASE_URL ++ "/api/images/direct/" ++ x).length = 0 := by rw [h]; rfl
  have hb : BASE_URL.length = 19 := rfl
  simp [String.length_append] at hl
  omega

/-- When the first XHR succeeds, the stealth loop keeps it and issues no
further attempt. -/
lemma stealth_first_success (transport : String → HttpResp) (img : Json) (url : String)
    (hu : url ≠ "") (hget : get_best_url img = .val (.str url))
    (hok : (download_image transport url).1 = true) :
    stealth_entity_download transport img =
      .ok ⟨[url], true, (download_image transport url).2, some url⟩ := by
  unfold stealth_entity_download
  rw [hget]
  have ht : (Json.str url).truthy = true := truthy_str url hu
  simp only [stealth_entity_after, ht, Bool.true_eq_false, if_false,
    stealth_try_first, hok, if_true]

/-- 200 with at most 1000 bytes is rejected by the stealth size filter. -/
lemma download_image_min_size (transport : String → HttpResp) (url : String)
    (_h1 : (transport url).status = 200) (h2 : (transport url).contentLen ≤ 1000) :
    (download_image transport url).1 = false := by
  show (if ((transport url).status == 200 && (transport url).contentLen != 0) = true then
      if (transport url).contentLen > 1000 then
        ((true : Bool), some (transport url).contentLen)
      else ((false : Bool), (none : Option Nat))
    else ((false : Bool), (none : Option Nat))).1 = false
  by_cases h0 : ((transport url).status == 200 && (transport url).contentLen != 0) = true
  · rw [if_pos h0, if_neg (by omega)]
  · rw [if_neg h0]

/-- An unresolvable entity is recorded as a failure, nothing is raised. -/
lemma stealth_no_url (transport : String → HttpResp) (img : Json)
    (h : get_best_url img = .none) :
    stealth_entity_download transport img = .ok ⟨[], false, none, none⟩ := by
  unfold stealth_entity_download
  rw [h]
  rfl

/-- download.py with a truthy identity tries ONLY the direct URL: when that
single GET is non-200, the result is a recorded failure and the record's
url/image_url/thumbnail_url fields are never consulted. -/
lemma http_download_only_direct (kvs : List (String × Json)) (transport : String → HttpResp)
    (hr : pyTruthy (pyOr ((Json.obj kvs).get "response_id") ((Json.obj kvs).get "id")) = true)
    (hs : (transport (BASE_URL ++ "/api/images/direct/" ++
        jsonToPyStr ((pyOr ((Json.obj kvs).get "response_id")
          ((Json.obj kvs).get "id")).getD .null))).status ≠ 200) :
    http_download_image (.obj kvs) transport = ⟨false, none⟩ := by
  unfold http_download_image
  rw [if_pos hr]
  have ht : pyTruthy (some (Json.str (BASE_URL ++ "/api/images/direct/" ++
      jsonToPyStr ((pyOr ((Json.obj kvs).get "response_id")
        ((Json.obj kvs).get "id")).getD .null)))) = true := by
    simp only [pyTruthy]
    exact truthy_str _ (base_url_append_ne _)
  rw [if_pos ht]
  simp only []
  rw [if_pos hs]

/-- C8: the claim states the download step tries the ordered candidate URLs
until one returns HTTP 200 above the size threshold, and in particular
records success via the second URL when the first 404s.  In download.py
(download_image) only ONE url is ever requested: with a truthy identity
the direct URL is built and its 404 ends the attempt as a failure — the
record's own url field, which would have answered 200 with 50000 bytes,
is never tried and no file is written. -/
theorem C8_counterexample :
    http_download_image ent8b transport8b = ⟨false, none⟩ ∧
    transport8b "https://x/full.png" = ⟨200, "image/png", 50000⟩ ∧
    ent8b.get "url" = some (.str "https://x/full.png") := ⟨rfl, rfl, rfl⟩

/-- C8 (amended): in download_stealth.py the loop tries the resolved best
URL and at most one fallback (the raw thumbnail_url/url field): in the
concrete scenario the 404 on the direct URL is followed by the thumbnail,
whose 200 with 50000 bytes is kept and written in full; a successful first
try is kept with no further attempt; success requires strictly more than
1000 bytes; an unresolvable entity is a recorded failure, not an
exception.  In download.py only a single URL is ever requested: with a
truthy identity, a non-200 on the direct URL is a failure and no other
field is tried. -/
theorem C8_download_fallback :
    stealth_entity_download transport8 ent8 =
      .ok ⟨[directXyz, "https://x/t.png"], true, some 50000, some "https://x/t.png"⟩ ∧
    (∀ (transport : String → HttpResp) (img : Json) (url : String), url ≠ "" →
      get_best_url img = .val (.str url) → (download_image transport url).1 = true →
      stealth_entity_download transport img =
        .ok ⟨[url], true, (download_image transport url).2, some url⟩) ∧
    (∀ (transport : String → HttpResp) (url : String),
      (transport url).status = 200 → (transport url).contentLen ≤ 1000 →
      (download_image transport url).1 = false) ∧
    (∀ (transport : String → HttpResp) (img : Json),
      get_best_url img = .none →
      stealth_entity_download transport img = .ok ⟨[], false, none, none⟩) ∧
    (∀ (kvs : List (String × Json)) (transport : String → HttpResp),
      pyTruthy (pyOr ((Json.obj kvs).get "response_id") ((Json.obj kvs).get "id")) = true →
      (transport (BASE_URL ++ "/api/images/direct/" ++
        jsonToPyStr ((pyOr ((Json.obj kvs).get "response_id")
          ((Json.obj kvs).get "id")).getD .null))).status ≠ 200 →
      http_download_image (.obj kvs) transport = ⟨false, none⟩) :=
  ⟨rfl, stealth_first_success, download_image_min_size, stealth_no_url,
   http_download_only_direct⟩

/-- Witness for C8: each conditional clause applied at concrete inputs. -/
theorem C8_download_fallback_witness :
    stealth_entity_download transportOK ent9 =
      .ok ⟨[directXyz], true, some 2000, some directXyz⟩ ∧
    (download_image transportSmall "https://x/a.png").1 = false ∧
    stealth_entity_download transport404 (.obj []) = .ok ⟨[], false, none, none⟩ ∧
    http_download_image (.obj [("response_id", Json.str "xyz"),
      ("url", Json.str "https://x/full.png")]) transport404 = ⟨false, none⟩ :=
  ⟨C8_download_fallback.2.1 transportOK ent9 directXyz (by decide) rfl rfl,
   C8_download_fallback.2.2.1 transportSmall "https://x/a.png" rfl (by decide),
   C8_download_fallback.2.2.2.1 transport404 (.obj []) rfl,
   C8_download_fallback.2.2.2.2 [("response_id", Json.str "xyz"),
     ("url", Json.str "https://x/full.png")] transport404 rfl (by decide)⟩

/-!
## Claim C9
-/

/-- With a truthy response_id/id, get_best_url returns the direct-access
URL and nothing else — no stripping, no further candidates. -/
lemma get_best_url_direct (kvs : List (String × Json)) (v : Json)
    (hv : pyOr ((Json.obj kvs).get "response_id") ((Json.obj kvs).get "id") = some v)
    (ht : v.truthy = true) :
    get_best_url (.obj kvs) =
      .val (.str (BASE_URL ++ "/api/images/direct/" ++ jsonToPyStr v)) := by
  unfold get_best_url
  simp only [hv, pyTruthy, ht, if_true, Option.getD_some]

/-- C9: the claim states resolution returns an ordered candidate LIST in
which, for an entity with response_id "xyz" and a thumbnail URL with a
size parameter, the direct URL comes first and the thumbnail WITH SIZE
PARAMS STRIPPED is a later candidate.  get_best_url returns one single
URL (the direct one), and the only later attempt made by the loop is the
RAW thumbnail — the stripped form is never among the URLs tried. -/
theorem C9_counterexample :
    get_best_url ent9 = .val (.str directXyz) ∧
    stealth_entity_download transport404 ent9 =
      .ok ⟨[directXyz, "https://x/img?w=100"], false, none, none⟩ ∧
    "https://x/img" ∉ [directXyz, "https://x/img?w=100"] := ⟨rfl, rfl, by decide⟩

/-- C9 (amended): get_best_url returns a SINGLE most-preferred URL — the
identity-derived direct URL whenever response_id/id is truthy, else the
first truthy of url/image_url/src/thumbnail_url (size params stripped only
when that URL string itself contains a thumbnail marker), else the entity
itself when it is a bare string, else None (never an exception on these
shapes); the loop's one later candidate is the raw, unstripped
thumbnail_url/url field. -/
theorem C9_url_resolution :
    (∀ (kvs : List (String × Json)) (v : Json),
      pyOr ((Json.obj kvs).get "response_id") ((Json.obj kvs).get "id") = some v →
      v.truthy = true →
      get_best_url (.obj kvs) =
        .val (.str (BASE_URL ++ "/api/images/direct/" ++ jsonToPyStr v))) ∧
    (∀ s : String, get_best_url (.str s) = .val (.str s)) ∧
    get_best_url (.obj [("url", .str "https://x/thumbnail_abc?w=100&h=50")]) =
      .val (.str "https://x/thumbnail_abc") ∧
    get_best_url (.obj []) = .none ∧
    get_best_url .null = .none ∧
    stealth_entity_download transport404
      (.obj [("response_id", .str "q"), ("thumbnail_url", .str "https://x/img2?w=9")]) =
      .ok ⟨["https://ideogram.ai/api/images/direct/q", "https://x/img2?w=9"],
        false, none, none⟩ :=
  ⟨get_best_url_direct, fun _ => rfl, rfl, rfl, rfl, rfl⟩

/-- Witness for C9: the direct-URL clause at a numeric identity. -/
theorem C9_url_resolution_witness :
    get_best_url (.obj [("id", Json.num 7)]) =
      .val (.str "https://ideogram.ai/api/images/direct/7") :=
  C9_url_resolution.1 [("id", Json.num 7)] (Json.num 7) rfl (by decide)

/-!
## Claim C10
-/

lemma bool_eq_false_of_ne_true {b : Bool} (h : ¬b = true) : b = false := by
  cases b
  · rfl
  · exact absurd rfl h

/-- C10 (confirmed): in both passive interceptors an intercepted response
whose URL lacks the substring "/api/" leaves the captured list — and hence
the catalog — unchanged, whatever its status and body; and any response
that changes the captured list necessarily had an /api/ URL, status 200, a
JSON content type and a decodable body. -/
theorem C10_api_filter :
    (∀ (st : List Captured) (r : RespEvent), hasSubstr "/api/" r.url = false →
      intercept_response st r = st ∧ on_response st r = st) ∧
    (∀ (st : List Captured) (r : RespEvent), intercept_response st r ≠ st →
      hasSubstr "/api/" r.url = true ∧ r.status = 200 ∧
      hasSubstr "json" r.contentType = true ∧ r.body.isSome = true) ∧
    (∀ (st : List Captured) (r : RespEvent), on_response st r ≠ st →
      hasSubstr "/api/" r.url = true ∧ r.status = 200 ∧
      hasSubstr "json" r.contentType = true ∧ r.body.isSome = true) := by
  refine ⟨?_, ?_, ?_⟩
  · intro st r h
    constructor
    · unfold intercept_response
      rw [if_neg (by simp [h])]
    · unfold on_response
      rw [if_pos (by simp [h])]
  · intro st r hne
    have h1 : hasSubstr "/api/" r.url = true := by
      by_contra hc
      apply hne
      unfold intercept_response
      rw [if_neg (by simp [bool_eq_false_of_ne_true hc])]
    have h2 : r.status = 200 := by
      by_contra hc
      apply hne
      unfold intercept_response
      rw [if_neg (by intro hcond; rw [Bool.and_eq_true] at hcond; exact hc (by simpa using hcond.2))]
    have h3 : hasSubstr "json" r.contentType = true := by
      by_contra hc
      apply hne
      unfold intercept_response
      rw [if_pos (by simp [h1, h2]), if_neg hc]
    have h4 : r.body.isSome = true := by
      cases hb : r.body with
      | none =>
          exfalso
          apply hne
          unfold intercept_response
          rw [if_pos (by simp [h1, h2]), if_pos h3, hb]
      | some b => rfl
    exact ⟨h1, h2, h3, h4⟩
  · intro st r hne
    have h1 : hasSubstr "/api/" r.url = true := by
      by_contra hc
      apply hne
      unfold on_response
      rw [if_pos (by simp [bool_eq_false_of_ne_true hc])]
    have h2 : r.status = 200 := by
      by_contra hc
      apply hne
      unfold on_response
      rw [if_neg (by simp [h1]), if_pos hc]
    have h3 : hasSubstr "json" r.contentType = true := by
      by_contra hc
      apply hne
      unfold on_response
      rw [if_neg (by simp [h1]), if_neg (by simpa using h2),
        if_pos (by simp [bool_eq_false_of_ne_true hc])]
    have h4 : r.body.isSome = true := by
      cases hb : r.body with
      | none =>
          exfalso
          apply hne
          unfold on_response
          rw [if_neg (by simp [h1]), if_neg (by simpa using h2),
            if_neg (by simp [h3]), hb]
      | some b => rfl
    exact ⟨h1, h2, h3, h4⟩

/-- Witness for C10: the response whose URL lacks /api/ is dropped by both
interceptors, and an /api/ 200 JSON response that does append satisfies
the conclusion's conditions. -/
theorem C10_api_filter_witness :
    (intercept_response [] rNonApi = [] ∧ on_response [] rNonApi = []) ∧
    (hasSubstr "/api/" rApi.url = true ∧ rApi.status = 200 ∧
      hasSubstr "json" rApi.contentType = true ∧ rApi.body.isSome = true) :=
  ⟨C10_api_filter.1 [] rNonApi (by decide),
   C10_api_filter.2.1 [] rApi (by decide)⟩
